import Mathlib

/-!
Verification of the status-update CLI (status-updates-reminder).

The development shallowly embeds the two layers the claims are about:

* the Jira access module (file `jira.ts`): the lazily cached custom-field
  resolution, JQL search, field read, field write, and the pure composer
  `buildNewStatus`;
* the command layer (file `index.ts`): the interactive batch controller
  `processTicketsInteractive`, the dry-run controller `processTicketsDryRun`,
  and the top-level `handleUpdate` handler.

Remote calls and the operator are external collaborators; they are embedded as
explicit oracles (a field-list response, a search server, a write-success
predicate, a list of operator answers), and every observable action of a run
(field fetch, display, prompt, write attempt, reported outcome) is recorded in
an explicit event trace. The clock is an explicit `today` parameter.
-/

/-- Whitespace as JavaScript's `String.prototype.trim` sees it (the source is
TypeScript, so `currentStatus.trim()` and `answer.trim()` use this set). -/
def isJsWhitespace (c : Char) : Bool :=
  c == ' ' || c == '\t' || c == '\n' || c == '\r' || c == '\x0b' || c == '\x0c' ||
  c == '\u00A0' || c == '\uFEFF' || c == '\u2028' || c == '\u2029'

/-- JavaScript `s.trim()`: drop leading and trailing whitespace. -/
def trimJs (s : String) : String :=
  String.mk (((s.data.dropWhile isJsWhitespace).reverse.dropWhile isJsWhitespace).reverse)

/-- Embedding of `buildNewStatus` (jira module, lines 113-130). The current
date is the explicit parameter `today`; the source computes it from the clock.
JavaScript string truthiness makes the guard `currentStatus &&
currentStatus.trim()` require a non-null, non-empty value whose trim is also
non-empty. -/
def buildNewStatus (today statusUpdate : String) (currentStatus : Option String)
    (addDatePrefix : Bool) : String :=
  let newLine := if addDatePrefix then today ++ ": " ++ statusUpdate else statusUpdate
  match currentStatus with
  | some c => if c != "" && trimJs c != "" then newLine ++ "\n" ++ c else newLine
  | none => newLine

/-- Reference composer written from the spec's words (section 4.1): the first
line is the dated or verbatim update text; a non-null current value that
contains non-whitespace content is appended after a newline exactly as stored,
otherwise the first line stands alone. -/
def composeSpec (today updateText : String) (currentValue : Option String)
    (addDatePrefix : Bool) : String :=
  let firstLine := if addDatePrefix then today ++ ": " ++ updateText else updateText
  match currentValue with
  | some c => if c.data.any (fun ch => !isJsWhitespace ch) then firstLine ++ "\n" ++ c
              else firstLine
  | none => firstLine

lemma trimJs_eq_empty_iff (s : String) :
    trimJs s = "" ↔ s.data.all isJsWhitespace := by
  unfold trimJs
  constructor
  · intro h
    have hnil :
        ((s.data.dropWhile isJsWhitespace).reverse.dropWhile isJsWhitespace).reverse = [] := by
      have := congrArg String.data h
      simpa using this
    have hnil2 :
        (s.data.dropWhile isJsWhitespace).reverse.dropWhile isJsWhitespace = [] := by
      simpa using hnil
    have hall2 : ∀ x ∈ (s.data.dropWhile isJsWhitespace).reverse, isJsWhitespace x := by
      simpa [List.dropWhile_eq_nil_iff] using hnil2
    have halldrop : ∀ x ∈ s.data.dropWhile isJsWhitespace, isJsWhitespace x := by
      intro x hx
      exact hall2 x (by simpa using hx)
    rw [List.all_eq_true]
    intro x hx
    rcases (List.mem_append.mp
      (by simpa [List.takeWhile_append_dropWhile] using hx :
        x ∈ s.data.takeWhile isJsWhitespace ++ s.data.dropWhile isJsWhitespace)) with h1 | h2
    · exact List.mem_takeWhile_imp h1
    · exact halldrop x h2
  · intro h
    have hdrop : s.data.dropWhile isJsWhitespace = [] := by
      rw [List.dropWhile_eq_nil_iff]
      intro x hx
      exact List.all_eq_true.mp h x hx
    simp [hdrop]

/-- C1: the composer agrees with the spec's reference definition for every
update text, current value and date-prefix flag: the first line is the dated
or verbatim update text, and the stored value is appended after a newline
exactly when it is non-null with non-whitespace content. -/
theorem buildNewStatus_eq_composeSpec (today u : String) (c : Option String) (d : Bool) :
    buildNewStatus today u c d = composeSpec today u c d := by
  unfold buildNewStatus composeSpec
  cases c with
  | none => rfl
  | some cv =>
    by_cases hall : cv.data.all isJsWhitespace
    · have htrim : trimJs cv = "" := (trimJs_eq_empty_iff cv).mpr hall
      have hany : cv.data.any (fun ch => !isJsWhitespace ch) = false := by
        rw [List.any_eq_false]
        intro x hx
        simp [List.all_eq_true.mp hall x hx]
      simp [htrim, hany]
    · have htrim : trimJs cv ≠ "" := fun h => hall ((trimJs_eq_empty_iff cv).mp h)
      have hne : cv ≠ "" := by
        intro h
        subst h
        exact hall (by simp)
      have hany : cv.data.any (fun ch => !isJsWhitespace ch) = true := by
        rw [List.any_eq_true]
        by_contra hcon
        push_neg at hcon
        apply hall
        rw [List.all_eq_true]
        intro x hx
        simpa using hcon x hx
      simp [hne, htrim, hany]

/-- C6: a current value consisting solely of whitespace characters is treated
exactly like a null current value: the prior content is dropped. -/
theorem whitespaceOnly_current_dropped (today u : String) (d : Bool) (c : String)
    (h : c.data.all isJsWhitespace) :
    buildNewStatus today u (some c) d = buildNewStatus today u none d := by
  have htrim : trimJs c = "" := (trimJs_eq_empty_iff c).mpr h
  unfold buildNewStatus
  simp [htrim]

/-- Witness for C6, including the spec's concrete instance
compose("X", "   ", false) == "X". -/
theorem whitespaceOnly_current_dropped_witness :
    buildNewStatus "2026-01-27" "X" (some "   ") false = "X" :=
  (whitespaceOnly_current_dropped "2026-01-27" "X" false "   " (by decide)).trans rfl

/-- An issue as returned by the search: its key, summary, workflow status name
and the remaining fields as a field-id-to-text mapping (a field that is absent
or holds a non-string value is simply absent from the mapping, matching what
`getCurrentStatus` can observe). -/
structure JiraIssue where
  key : String
  summary : String
  statusName : String
  fields : List (String × String)
  deriving Repr, DecidableEq

/-- One observable action of a run: a per-issue field fetch, a per-issue
display of current and proposed values, an operator prompt, a WriteField call
(the remote single-field mutation), and the reported outcome of an update
attempt. -/
inductive Event where
  | fetchCurrent (key : String) (value : Option String)
  | display (key : String) (current : Option String) (proposed : String)
  | promptUser (key : String)
  | writeField (key : String) (value : String)
  | updateOk (key : String)
  | updateFailed (key : String)
  deriving Repr, DecidableEq

/-- The issue key an event concerns. -/
def Event.key : Event → String
  | .fetchCurrent k _ => k
  | .display k _ _ => k
  | .promptUser k => k
  | .writeField k _ => k
  | .updateOk k => k
  | .updateFailed k => k

/-- Whether an event is a WriteField call. -/
def Event.isWrite : Event → Bool
  | .writeField _ _ => true
  | _ => false

/-- State of the interactive batch loop of `processTicketsInteractive`
(index.ts, lines 66-153): the two latches, the two counters, the operator
answers not yet consumed, and the trace of observable actions so far. -/
structure InterState where
  applyAll : Bool
  skipAll : Bool
  updatedCount : Nat
  skippedCount : Nat
  answers : List String
  trace : List Event
  deriving Repr, DecidableEq

/-- The interactive loop's starting state. -/
def initialInterState (answers : List String) : InterState :=
  { applyAll := false, skipAll := false, updatedCount := 0, skippedCount := 0,
    answers := answers, trace := [] }

/-- The normalization the `prompt` helper applies to the operator's raw input
(index.ts, line 31): lower-case, then trim. -/
def normalizeAnswer (raw : String) : String :=
  trimJs (String.mk (raw.data.map Char.toLower))

/-- The switch cases `y` and `yes` (index.ts, lines 107-108). -/
def isYes (a : String) : Bool := a == "y" || a == "yes"

/-- The switch cases `a` and `all` (index.ts, lines 121-122). -/
def isAll (a : String) : Bool := a == "a" || a == "all"

/-- The switch cases `s`, `skip` and `skip all` (index.ts, lines 136-138). -/
def isSkip (a : String) : Bool := a == "s" || a == "skip" || a == "skip all"

/-- One update attempt: the try/catch around `updateCurrentStatus` shared by
the `y` case, the `a` case and the auto-apply path (index.ts, lines 88-97,
109-118, 124-133). `writeOk` is the remote collaborator: whether the
WriteField call for this key and value succeeds. On success the updated
counter is incremented; on failure the failure is reported for this key and
neither counter changes. -/
def attemptUpdate (writeOk : String → String → Bool) (key newStatus : String)
    (s : InterState) : InterState :=
  let s1 := { s with trace := s.trace ++ [Event.writeField key newStatus] }
  if writeOk key newStatus then
    { s1 with updatedCount := s1.updatedCount + 1,
              trace := s1.trace ++ [Event.updateOk key] }
  else
    { s1 with trace := s1.trace ++ [Event.updateFailed key] }

/-- Body of the `for` loop of `processTicketsInteractive` for one issue
(index.ts, lines 76-147). -/
def stepInteractive (readField : JiraIssue → Option String)
    (writeOk : String → String → Bool) (today statusUpdate : String)
    (addDatePrefix : Bool) (s : InterState) (issue : JiraIssue) : InterState :=
  if s.skipAll then
    { s with skippedCount := s.skippedCount + 1 }
  else
    let currentStatus := readField issue
    let newStatus := buildNewStatus today statusUpdate currentStatus addDatePrefix
    let s1 := { s with trace := s.trace ++
      [Event.fetchCurrent issue.key currentStatus,
       Event.display issue.key currentStatus newStatus] }
    if s1.applyAll then
      attemptUpdate writeOk issue.key newStatus s1
    else
      let answer := normalizeAnswer (s1.answers.headD "")
      let s2 := { s1 with answers := s1.answers.tail,
                          trace := s1.trace ++ [Event.promptUser issue.key] }
      if isYes answer then
        attemptUpdate writeOk issue.key newStatus s2
      else if isAll answer then
        attemptUpdate writeOk issue.key newStatus { s2 with applyAll := true }
      else if isSkip answer then
        { s2 with skipAll := true, skippedCount := s2.skippedCount + 1 }
      else
        { s2 with skippedCount := s2.skippedCount + 1 }

/-- Embedding of `processTicketsInteractive` (index.ts, lines 66-153): fold
the per-issue body over the issue list. The summary printed at the end is the
final state's updated and skipped counters. -/
def processTicketsInteractive (readField : JiraIssue → Option String)
    (writeOk : String → String → Bool) (today : String) (answers : List String)
    (issues : List JiraIssue) (statusUpdate : String) (addDatePrefix : Bool) :
    InterState :=
  issues.foldl (stepInteractive readField writeOk today statusUpdate addDatePrefix)
    (initialInterState answers)

/-- Observable actions of `processTicketsDryRun` for one issue (index.ts,
lines 165-169): fetch the current value, compute the proposed value, display
both. -/
def dryRunIssueEvents (readField : JiraIssue → Option String)
    (today statusUpdate : String) (addDatePrefix : Bool) (issue : JiraIssue) :
    List Event :=
  let currentStatus := readField issue
  let newStatus := buildNewStatus today statusUpdate currentStatus addDatePrefix
  [Event.fetchCurrent issue.key currentStatus,
   Event.display issue.key currentStatus newStatus]

/-- Embedding of `processTicketsDryRun` (index.ts, lines 158-175): the trace
of the run and the count it reports at the end (`Would update N ticket(s)`,
which is the length of the issue list). -/
def processTicketsDryRun (readField : JiraIssue → Option String)
    (today : String) (issues : List JiraIssue) (statusUpdate : String)
    (addDatePrefix : Bool) : List Event × Nat :=
  (issues.flatMap (dryRunIssueEvents readField today statusUpdate addDatePrefix),
   issues.length)

/-- Outcome of one whole command run, the observable shape of `handleUpdate`
(index.ts, lines 180-218): the exit code (`process.exit(1)` on fatal errors,
normal termination otherwise), the trace of per-issue actions, the
Updated/Skipped summary when interactive mode ran, the would-update count when
dry-run mode ran, and whether the no-tickets notice was printed. -/
structure RunResult where
  exitCode : Nat
  trace : List Event
  summary : Option (Nat × Nat)
  wouldUpdate : Option Nat
  noticeNoTickets : Bool
  deriving Repr, DecidableEq

/-- Embedding of `handleUpdate` (index.ts, lines 180-218). `authed` is the
`isAuthenticated()` check; `queryResult` is the awaited outcome of
`searchIssues` (an exception aborts the run with exit code 1 before any
per-issue work); an empty result prints the no-tickets notice and returns;
otherwise one of the two processing modes runs and the command terminates
normally, whatever the per-ticket write outcomes were. -/
def handleUpdate (authed : Bool) (queryResult : Except String (List JiraIssue))
    (readField : JiraIssue → Option String) (writeOk : String → String → Bool)
    (today : String) (answers : List String) (statusUpdate : String)
    (dryRun addDatePrefix : Bool) : RunResult :=
  if !authed then
    { exitCode := 1, trace := [], summary := none, wouldUpdate := none,
      noticeNoTickets := false }
  else
    match queryResult with
    | Except.error _ =>
      { exitCode := 1, trace := [], summary := none, wouldUpdate := none,
        noticeNoTickets := false }
    | Except.ok issues =>
      if issues.length == 0 then
        { exitCode := 0, trace := [], summary := none, wouldUpdate := none,
          noticeNoTickets := true }
      else if dryRun then
        let res := processTicketsDryRun readField today issues statusUpdate addDatePrefix
        { exitCode := 0, trace := res.1, summary := none, wouldUpdate := some res.2,
          noticeNoTickets := false }
      else
        let final := processTicketsInteractive readField writeOk today answers issues
          statusUpdate addDatePrefix
        { exitCode := 0, trace := final.trace,
          summary := some (final.updatedCount, final.skippedCount),
          wouldUpdate := none, noticeNoTickets := false }

/-- A Jira field descriptor as returned by the `/field` endpoint. -/
structure JiraField where
  id : String
  name : String
  custom : Bool
  deriving Repr, DecidableEq

/-- Process-wide state of the jira module: the `currentStatusFieldId` cache
(jira module, lines 6-7) together with a count of the remote `/field` lookups
performed, the observable the caching claims are about. -/
structure JiraState where
  currentStatusFieldId : Option String
  fieldLookups : Nat
  deriving Repr, DecidableEq

/-- The jira module's state at process start: cache unset, no lookup yet. -/
def initialJiraState : JiraState :=
  { currentStatusFieldId := none, fieldLookups := 0 }

/-- The `fields.find` call of `getCurrentStatusFieldId` (jira module, lines
46-48): the first field named "Current Status" that is custom. -/
def findCurrentStatusField (fields : List JiraField) : Option JiraField :=
  fields.find? (fun f => f.name == "Current Status" && f.custom)

/-- The cache-miss path of `getCurrentStatusFieldId` (jira module, lines
44-58): fetch the field list (`fieldsResp` is the remote response, counted as
one lookup), find the field, cache and return its id, or throw when the field
list cannot be fetched or the field is missing. -/
def lookupCurrentStatusFieldId (fieldsResp : Except String (List JiraField))
    (st : JiraState) : Except String String × JiraState :=
  let st1 := { st with fieldLookups := st.fieldLookups + 1 }
  match fieldsResp with
  | Except.error e => (Except.error e, st1)
  | Except.ok fields =>
    match findCurrentStatusField fields with
    | some f => (Except.ok f.id, { st1 with currentStatusFieldId := some f.id })
    | none =>
      (Except.error
        "Could not find \"Current Status\" custom field. Make sure this field exists in your Jira project.",
       st1)

/-- Embedding of `getCurrentStatusFieldId` (jira module, lines 39-59): return
the cached id when the cache is truthy (JavaScript truthiness: set and
non-empty), otherwise perform the lookup. -/
def getCurrentStatusFieldId (fieldsResp : Except String (List JiraField))
    (st : JiraState) : Except String String × JiraState :=
  match st.currentStatusFieldId with
  | some fid =>
    if fid != "" then (Except.ok fid, st)
    else lookupCurrentStatusFieldId fieldsResp st
  | none => lookupCurrentStatusFieldId fieldsResp st

/-- The search request `searchIssues` sends (jira module, lines 67-72): the
JQL, the requested fields, and the hardcoded `maxResults=100`. -/
structure SearchRequest where
  jql : String
  fields : String
  maxResults : Nat
  deriving Repr, DecidableEq

/-- The `/search` response shape (types.ts). -/
structure JiraSearchResponse where
  issues : List JiraIssue
  total : Nat
  maxResults : Nat
  startAt : Nat
  deriving Repr, DecidableEq

/-- Embedding of `searchIssues` (jira module, lines 64-75): resolve the field
id, send one search request built from the JQL with `maxResults=100`, and
return the response's issue list. `searchServer` is the remote collaborator;
the requests sent are returned alongside the result. -/
def searchIssues (fieldsResp : Except String (List JiraField))
    (searchServer : SearchRequest → Except String JiraSearchResponse)
    (jql : String) (st : JiraState) :
    Except String (List JiraIssue) × JiraState × List SearchRequest :=
  match getCurrentStatusFieldId fieldsResp st with
  | (Except.error e, st1) => (Except.error e, st1, [])
  | (Except.ok fieldId, st1) =>
    let req : SearchRequest :=
      { jql := jql, fields := "summary,status," ++ fieldId, maxResults := 100 }
    match searchServer req with
    | Except.error e => (Except.error e, st1, [req])
    | Except.ok response => (Except.ok response.issues, st1, [req])

/-- Embedding of `getCurrentStatus` (jira module, lines 80-89): resolve the
field id, then read that field from the already-fetched issue snapshot; null
when the field is absent or not a string. -/
def getCurrentStatus (fieldsResp : Except String (List JiraField))
    (issue : JiraIssue) (st : JiraState) :
    Except String (Option String) × JiraState :=
  match getCurrentStatusFieldId fieldsResp st with
  | (Except.error e, st1) => (Except.error e, st1)
  | (Except.ok fieldId, st1) => (Except.ok (issue.fields.lookup fieldId), st1)

/-- The single-field PUT `updateCurrentStatus` sends (jira module, lines
100-107). -/
structure WriteRequest where
  issueKey : String
  fieldId : String
  value : String
  deriving Repr, DecidableEq

/-- Embedding of `updateCurrentStatus` (jira module, lines 94-108): resolve
the field id and issue the single-field mutation request. -/
def updateCurrentStatus (fieldsResp : Except String (List JiraField))
    (issueKey newStatus : String) (st : JiraState) :
    Except String WriteRequest × JiraState :=
  match getCurrentStatusFieldId fieldsResp st with
  | (Except.error e, st1) => (Except.error e, st1)
  | (Except.ok fieldId, st1) =>
    (Except.ok { issueKey := issueKey, fieldId := fieldId, value := newStatus }, st1)

/-- Modelled from the spec: the Issue Repository collaborator (section 6,
Query) — the remote search endpoint is not part of this repository; it is
modelled as returning the query's matching issues in order, honoring the
request's maxResults bound. -/
def compliantSearchServer (allMatching : String → List JiraIssue) :
    SearchRequest → Except String JiraSearchResponse :=
  fun req =>
    Except.ok
      { issues := (allMatching req.jql).take req.maxResults,
        total := (allMatching req.jql).length,
        maxResults := req.maxResults, startAt := 0 }

/-- Sample issue 1 for concrete runs. -/
def rmIssue1 : JiraIssue :=
  { key := "RM-1", summary := "First ticket", statusName := "In Progress",
    fields := [("customfield_10001", "2026-01-20: Kickoff")] }

/-- Sample issue 2 for concrete runs; its status field is absent. -/
def rmIssue2 : JiraIssue :=
  { key := "RM-2", summary := "Second ticket", statusName := "In Progress",
    fields := [] }

/-- Sample issue 3 for concrete runs. -/
def rmIssue3 : JiraIssue :=
  { key := "RM-3", summary := "Third ticket", statusName := "In Progress",
    fields := [("customfield_10001", "   ")] }

/-- ReadField for the sample issues: the cached custom field id is
customfield_10001. -/
def rmReadField : JiraIssue → Option String :=
  fun issue => issue.fields.lookup "customfield_10001"

/-- The Current Status field descriptor used in concrete runs. -/
def statusField : JiraField :=
  { id := "customfield_10001", name := "Current Status", custom := true }

lemma isYes_eq_false_of_isAll {a : String} (h : isAll a = true) : isYes a = false := by
  simp only [isAll, Bool.or_eq_true, beq_iff_eq] at h
  rcases h with h | h <;> subst h <;> rfl

lemma isYes_isAll_eq_false_of_isSkip {a : String} (h : isSkip a = true) :
    isYes a = false ∧ isAll a = false := by
  simp only [isSkip, Bool.or_eq_true, beq_iff_eq] at h
  rcases h with (h | h) | h <;> subst h <;> exact ⟨rfl, rfl⟩

/-- C10: a successful query returning an empty issue list prints the
no-tickets notice and the command ends with exit code zero, entering neither
run mode: no fetch, display, prompt or WriteField event occurs and no
Updated/Skipped summary is emitted. -/
theorem emptyResult_notice_zero_exit (readField : JiraIssue → Option String)
    (writeOk : String → String → Bool) (today : String) (answers : List String)
    (statusUpdate : String) (dryRun addDatePrefix : Bool) :
    handleUpdate true (Except.ok []) readField writeOk today answers statusUpdate
        dryRun addDatePrefix
      = { exitCode := 0, trace := [], summary := none, wouldUpdate := none,
          noticeNoTickets := true } := rfl

/-- C7: a failure of the initial issue query is fatal — the run ends with exit
code 1 and an empty trace, so no per-issue fetch, display, prompt or mutation
occurred; when the query succeeds the command ends with exit code 0 whatever
the issues and whatever the per-ticket write outcomes. -/
theorem queryFailure_fatal_querySuccess_zero (readField : JiraIssue → Option String)
    (writeOk : String → String → Bool) (today : String) (answers : List String)
    (statusUpdate : String) (dryRun addDatePrefix : Bool) :
    (∀ msg : String,
        (handleUpdate true (Except.error msg) readField writeOk today answers
          statusUpdate dryRun addDatePrefix).exitCode = 1
      ∧ (handleUpdate true (Except.error msg) readField writeOk today answers
          statusUpdate dryRun addDatePrefix).trace = [])
  ∧ (∀ issues : List JiraIssue,
      (handleUpdate true (Except.ok issues) readField writeOk today answers
        statusUpdate dryRun addDatePrefix).exitCode = 0) := by
  constructor
  · intro msg
    exact ⟨rfl, rfl⟩
  · intro issues
    by_cases h0 : issues.length = 0 <;> by_cases hd : dryRun <;>
      simp [handleUpdate, h0, hd]

/-- C5: in interactive mode over the three sample issues with every WriteField
call succeeding, answering n to the first and a to the second updates the
second and third (the third auto-applied, with no prompt), and the summary is
Updated: 2, Skipped: 1. -/
theorem interactive_n_a_auto_scenario :
    (processTicketsInteractive rmReadField (fun _ _ => true) "2026-01-27" ["n", "a"]
        [rmIssue1, rmIssue2, rmIssue3] "On track" true).updatedCount = 2
  ∧ (processTicketsInteractive rmReadField (fun _ _ => true) "2026-01-27" ["n", "a"]
        [rmIssue1, rmIssue2, rmIssue3] "On track" true).skippedCount = 1
  ∧ Event.promptUser "RM-3" ∉
      (processTicketsInteractive rmReadField (fun _ _ => true) "2026-01-27" ["n", "a"]
        [rmIssue1, rmIssue2, rmIssue3] "On track" true).trace
  ∧ Event.writeField "RM-2" "2026-01-27: On track" ∈
      (processTicketsInteractive rmReadField (fun _ _ => true) "2026-01-27" ["n", "a"]
        [rmIssue1, rmIssue2, rmIssue3] "On track" true).trace
  ∧ Event.writeField "RM-3" "2026-01-27: On track" ∈
      (processTicketsInteractive rmReadField (fun _ _ => true) "2026-01-27" ["n", "a"]
        [rmIssue1, rmIssue2, rmIssue3] "On track" true).trace
  ∧ Event.writeField "RM-1" (buildNewStatus "2026-01-27" "On track"
        (rmReadField rmIssue1) true) ∉
      (processTicketsInteractive rmReadField (fun _ _ => true) "2026-01-27" ["n", "a"]
        [rmIssue1, rmIssue2, rmIssue3] "On track" true).trace := by decide

/-- C2: an update attempt (reached via a y/yes answer, an a/all answer, or the
auto-apply path once applyAll is set) whose WriteField call fails reports the
failure with that issue's key, increments neither the updated nor the skipped
counter, and the loop continues with the remaining issues. -/
theorem updateFailure_reported_uncounted_continues
    (readField : JiraIssue → Option String) (writeOk : String → String → Bool)
    (today statusUpdate : String) (addDatePrefix : Bool)
    (s : InterState) (issue : JiraIssue) (rest : List JiraIssue)
    (hskip : s.skipAll = false)
    (hatt : s.applyAll = true
      ∨ isYes (normalizeAnswer (s.answers.headD "")) = true
      ∨ isAll (normalizeAnswer (s.answers.headD "")) = true)
    (hfail : writeOk issue.key
      (buildNewStatus today statusUpdate (readField issue) addDatePrefix) = false) :
    List.foldl (stepInteractive readField writeOk today statusUpdate addDatePrefix) s
        (issue :: rest)
      = List.foldl (stepInteractive readField writeOk today statusUpdate addDatePrefix)
          (stepInteractive readField writeOk today statusUpdate addDatePrefix s issue) rest
    ∧ (stepInteractive readField writeOk today statusUpdate addDatePrefix s
        issue).updatedCount = s.updatedCount
    ∧ (stepInteractive readField writeOk today statusUpdate addDatePrefix s
        issue).skippedCount = s.skippedCount
    ∧ Event.updateFailed issue.key ∈
        (stepInteractive readField writeOk today statusUpdate addDatePrefix s
          issue).trace := by
  refine ⟨rfl, ?_⟩
  by_cases ha : s.applyAll
  · simp [stepInteractive, attemptUpdate, hskip, ha, hfail]
  · rcases hatt with h | h | h
    · exact absurd h (by simpa using ha)
    · rw [List.headD_eq_head?_getD] at h
      simp [stepInteractive, attemptUpdate, hskip, ha, h, hfail]
    · have hy := isYes_eq_false_of_isAll h
      rw [List.headD_eq_head?_getD] at h hy
      simp [stepInteractive, attemptUpdate, hskip, ha, h, hy, hfail]

/-- Witness for C2 at a concrete failing run: a y answer on the first sample
issue with a failing WriteField leaves both counters at zero, reports the
failure for RM-1, and the fold proceeds to the rest of the list. -/
theorem updateFailure_reported_uncounted_continues_witness :
    (stepInteractive rmReadField (fun _ _ => false) "2026-01-27" "On track" true
        (initialInterState ["y"]) rmIssue1).updatedCount = 0
  ∧ (stepInteractive rmReadField (fun _ _ => false) "2026-01-27" "On track" true
        (initialInterState ["y"]) rmIssue1).skippedCount = 0
  ∧ Event.updateFailed "RM-1" ∈
      (stepInteractive rmReadField (fun _ _ => false) "2026-01-27" "On track" true
        (initialInterState ["y"]) rmIssue1).trace := by
  have h := updateFailure_reported_uncounted_continues rmReadField (fun _ _ => false)
    "2026-01-27" "On track" true (initialInterState ["y"]) rmIssue1 [rmIssue2] rfl
    (Or.inr (Or.inl (by decide))) rfl
  exact ⟨h.2.1, h.2.2.1, by simpa using h.2.2.2⟩

lemma foldl_skipAll_invariant (readField : JiraIssue → Option String)
    (writeOk : String → String → Bool) (today statusUpdate : String)
    (addDatePrefix : Bool) (l : List JiraIssue) (s : InterState)
    (h : s.skipAll = true) :
    (List.foldl (stepInteractive readField writeOk today statusUpdate addDatePrefix)
        s l).skippedCount = s.skippedCount + l.length
  ∧ (List.foldl (stepInteractive readField writeOk today statusUpdate addDatePrefix)
        s l).updatedCount = s.updatedCount
  ∧ (List.foldl (stepInteractive readField writeOk today statusUpdate addDatePrefix)
        s l).trace = s.trace := by
  induction l generalizing s with
  | nil => simp
  | cons i t ih =>
    have hstep : stepInteractive readField writeOk today statusUpdate addDatePrefix s i
        = { s with skippedCount := s.skippedCount + 1 } := by
      simp [stepInteractive, h]
    rw [List.foldl_cons, hstep]
    have ih2 := ih { s with skippedCount := s.skippedCount + 1 } h
    refine ⟨?_, ?_, ?_⟩
    · rw [ih2.1]
      simp only [List.length_cons]
      omega
    · rw [ih2.2.1]
    · rw [ih2.2.2]

/-- C3: once the operator answers s, skip or skip all on an issue, that issue
and every remaining issue are counted as skipped, the updated counter is
unchanged, and the only events of the whole remaining run are the fetch,
display and prompt of the issue that received the skip answer — no further
fetch, display, prompt or WriteField occurs for any remaining issue. -/
theorem skipAll_counts_remaining_skipped (readField : JiraIssue → Option String)
    (writeOk : String → String → Bool) (today statusUpdate : String)
    (addDatePrefix : Bool) (s : InterState) (issue : JiraIssue)
    (rest : List JiraIssue) (hskip : s.skipAll = false) (happly : s.applyAll = false)
    (hans : isSkip (normalizeAnswer (s.answers.headD "")) = true) :
    (List.foldl (stepInteractive readField writeOk today statusUpdate addDatePrefix) s
        (issue :: rest)).skippedCount = s.skippedCount + 1 + rest.length
  ∧ (List.foldl (stepInteractive readField writeOk today statusUpdate addDatePrefix) s
        (issue :: rest)).updatedCount = s.updatedCount
  ∧ (List.foldl (stepInteractive readField writeOk today statusUpdate addDatePrefix) s
        (issue :: rest)).trace = s.trace ++
      [Event.fetchCurrent issue.key (readField issue),
       Event.display issue.key (readField issue)
         (buildNewStatus today statusUpdate (readField issue) addDatePrefix),
       Event.promptUser issue.key] := by
  have hnot := isYes_isAll_eq_false_of_isSkip hans
  have hy := hnot.1
  have hal := hnot.2
  rw [List.headD_eq_head?_getD] at hans hy hal
  have hstep : stepInteractive readField writeOk today statusUpdate addDatePrefix s issue
      = { s with skipAll := true, skippedCount := s.skippedCount + 1,
                 answers := s.answers.tail,
                 trace := s.trace ++
                   [Event.fetchCurrent issue.key (readField issue),
                    Event.display issue.key (readField issue)
                      (buildNewStatus today statusUpdate (readField issue) addDatePrefix),
                    Event.promptUser issue.key] } := by
    simp [stepInteractive, hskip, happly, hans, hy, hal]
  rw [List.foldl_cons, hstep]
  have hrest := foldl_skipAll_invariant readField writeOk today statusUpdate addDatePrefix
    rest { s with skipAll := true, skippedCount := s.skippedCount + 1,
                  answers := s.answers.tail,
                  trace := s.trace ++
                    [Event.fetchCurrent issue.key (readField issue),
                     Event.display issue.key (readField issue)
                       (buildNewStatus today statusUpdate (readField issue) addDatePrefix),
                     Event.promptUser issue.key] } rfl
  exact ⟨hrest.1, hrest.2.1, hrest.2.2⟩

/-- Witness for C3, the spec's concrete scenario: an s answer on ticket 1 of
the three sample issues gives the summary Updated: 0, Skipped: 3, and the run
makes no WriteField call at all — in particular none for tickets 2 and 3. -/
theorem skipAll_counts_remaining_skipped_witness :
    (processTicketsInteractive rmReadField (fun _ _ => true) "2026-01-27" ["s"]
        [rmIssue1, rmIssue2, rmIssue3] "On track" true).updatedCount = 0
  ∧ (processTicketsInteractive rmReadField (fun _ _ => true) "2026-01-27" ["s"]
        [rmIssue1, rmIssue2, rmIssue3] "On track" true).skippedCount = 3
  ∧ (processTicketsInteractive rmReadField (fun _ _ => true) "2026-01-27" ["s"]
        [rmIssue1, rmIssue2, rmIssue3] "On track" true).trace.countP
      (fun e => e.isWrite) = 0 := by
  have h := skipAll_counts_remaining_skipped rmReadField (fun _ _ => true) "2026-01-27"
    "On track" true (initialInterState ["s"]) rmIssue1 [rmIssue2, rmIssue3] rfl rfl
    (by decide)
  refine ⟨?_, ?_, ?_⟩
  · simpa [processTicketsInteractive] using h.2.1
  · simpa [processTicketsInteractive] using h.1
  · have htr := h.2.2
    simp only [processTicketsInteractive]
    rw [htr]
    decide

/-- C4: a dry run makes zero WriteField calls whatever the issues, fetches the
current value of every issue, computes and displays its proposed value, and
ends reporting the number of issues as the count that would be updated. -/
theorem dryRun_no_writes_all_displayed (readField : JiraIssue → Option String)
    (today statusUpdate : String) (addDatePrefix : Bool) (issues : List JiraIssue) :
    (∀ e ∈ (processTicketsDryRun readField today issues statusUpdate
        addDatePrefix).1, e.isWrite = false)
  ∧ (∀ issue ∈ issues,
      Event.fetchCurrent issue.key (readField issue) ∈
        (processTicketsDryRun readField today issues statusUpdate addDatePrefix).1
    ∧ Event.display issue.key (readField issue)
        (buildNewStatus today statusUpdate (readField issue) addDatePrefix) ∈
        (processTicketsDryRun readField today issues statusUpdate addDatePrefix).1)
  ∧ (processTicketsDryRun readField today issues statusUpdate addDatePrefix).2
      = issues.length := by
  refine ⟨?_, ?_, rfl⟩
  · intro e he
    rcases List.mem_flatMap.mp he with ⟨i, _, hei⟩
    rcases (by simpa [dryRunIssueEvents] using hei :
        e = Event.fetchCurrent i.key (readField i) ∨
        e = Event.display i.key (readField i)
          (buildNewStatus today statusUpdate (readField i) addDatePrefix)) with rfl | rfl
    · rfl
    · rfl
  · intro issue hi
    constructor
    · exact List.mem_flatMap.mpr ⟨issue, hi, by simp [dryRunIssueEvents]⟩
    · exact List.mem_flatMap.mpr ⟨issue, hi, by simp [dryRunIssueEvents]⟩

/-- Witness for C4 on the three sample issues: the reported count is 3, the
trace holds no WriteField event, and ticket 2's fetch is in the trace. -/
theorem dryRun_no_writes_all_displayed_witness :
    (processTicketsDryRun rmReadField "2026-01-27" [rmIssue1, rmIssue2, rmIssue3]
        "On track" true).2 = 3
  ∧ Event.fetchCurrent "RM-2" (rmReadField rmIssue2) ∈
      (processTicketsDryRun rmReadField "2026-01-27" [rmIssue1, rmIssue2, rmIssue3]
        "On track" true).1
  ∧ Event.writeField "RM-1" "2026-01-27: On track" ∉
      (processTicketsDryRun rmReadField "2026-01-27" [rmIssue1, rmIssue2, rmIssue3]
        "On track" true).1 := by
  have h := dryRun_no_writes_all_displayed rmReadField "2026-01-27" "On track" true
    [rmIssue1, rmIssue2, rmIssue3]
  refine ⟨h.2.2, ?_, ?_⟩
  · simpa using (h.2.1 rmIssue2 (by simp)).1
  · intro hmem
    have := h.1 _ hmem
    simp [Event.isWrite] at this

/-- C8 counterexample: the cache check uses JavaScript string truthiness, so
when the "Current Status" field's id is the empty string the first resolution
succeeds (one lookup, id cached) yet the next resolution performs the remote
lookup again instead of reusing the cached identifier. -/
theorem fieldId_cache_refetch_on_empty_id :
    (getCurrentStatusFieldId
        (Except.ok [{ id := "", name := "Current Status", custom := true }])
        initialJiraState).1 = Except.ok ""
  ∧ (getCurrentStatusFieldId
        (Except.ok [{ id := "", name := "Current Status", custom := true }])
        initialJiraState).2.fieldLookups = 1
  ∧ (getCurrentStatusFieldId
        (Except.ok [{ id := "", name := "Current Status", custom := true }])
        ((getCurrentStatusFieldId
          (Except.ok [{ id := "", name := "Current Status", custom := true }])
          initialJiraState).2)).2.fieldLookups = 2 := ⟨rfl, rfl, rfl⟩

/-- C8 (amended): once a resolution has cached a non-empty identifier, every
subsequent resolution — and hence every search, current-value read and write —
returns that identifier and leaves the state untouched: no further remote
field lookup happens, and the search request and the write request are built
from the cached id. -/
theorem fieldId_cached_reused (fieldsResp : Except String (List JiraField))
    (searchServer : SearchRequest → Except String JiraSearchResponse)
    (jql : String) (issue : JiraIssue) (key value : String)
    (st : JiraState) (fid : String)
    (hcache : st.currentStatusFieldId = some fid) (hne : fid ≠ "") :
    getCurrentStatusFieldId fieldsResp st = (Except.ok fid, st)
  ∧ (searchIssues fieldsResp searchServer jql st).2.1 = st
  ∧ (searchIssues fieldsResp searchServer jql st).2.2
      = [{ jql := jql, fields := "summary,status," ++ fid, maxResults := 100 }]
  ∧ getCurrentStatus fieldsResp issue st = (Except.ok (issue.fields.lookup fid), st)
  ∧ updateCurrentStatus fieldsResp key value st
      = (Except.ok { issueKey := key, fieldId := fid, value := value }, st) := by
  have h1 : getCurrentStatusFieldId fieldsResp st = (Except.ok fid, st) := by
    simp [getCurrentStatusFieldId, hcache, hne]
  have hsearch :
      (searchIssues fieldsResp searchServer jql st).2.1 = st
    ∧ (searchIssues fieldsResp searchServer jql st).2.2
        = [{ jql := jql, fields := "summary,status," ++ fid, maxResults := 100 }] := by
    simp only [searchIssues, h1]
    cases hq : searchServer ⟨jql, "summary,status," ++ fid, 100⟩ <;> simp [hq]
  refine ⟨h1, hsearch.1, hsearch.2, ?_, ?_⟩
  · simp [getCurrentStatus, h1]
  · simp [updateCurrentStatus, h1]

/-- Witness for C8 at a concrete state: with the id customfield_10001 cached,
resolution and a current-value read succeed and leave the state untouched even
though the remote field endpoint is down — no lookup is performed. -/
theorem fieldId_cached_reused_witness :
    getCurrentStatusFieldId (Except.error "down")
        { currentStatusFieldId := some "customfield_10001", fieldLookups := 1 }
      = (Except.ok "customfield_10001",
         { currentStatusFieldId := some "customfield_10001", fieldLookups := 1 })
  ∧ getCurrentStatus (Except.error "down") rmIssue1
        { currentStatusFieldId := some "customfield_10001", fieldLookups := 1 }
      = (Except.ok (some "2026-01-20: Kickoff"),
         { currentStatusFieldId := some "customfield_10001", fieldLookups := 1 }) := by
  have h := fieldId_cached_reused (Except.error "down") (fun _ => Except.error "down")
    "project = RM" rmIssue1 "RM-1" "v"
    { currentStatusFieldId := some "customfield_10001", fieldLookups := 1 }
    "customfield_10001" rfl (by decide)
  exact ⟨h.1, by simpa using h.2.2.2.1⟩

lemma stepInteractive_trace_shape (readField : JiraIssue → Option String)
    (writeOk : String → String → Bool) (today statusUpdate : String)
    (addDatePrefix : Bool) (s : InterState) (issue : JiraIssue) :
    ∃ tr : List Event,
      (stepInteractive readField writeOk today statusUpdate addDatePrefix s
        issue).trace = s.trace ++ tr
      ∧ ∀ e ∈ tr, e.key = issue.key := by
  by_cases h0 : s.skipAll
  · exact ⟨[], by simp [stepInteractive, h0], by simp⟩
  by_cases h1 : s.applyAll
  · by_cases hw : writeOk issue.key
      (buildNewStatus today statusUpdate (readField issue) addDatePrefix)
    · refine ⟨[Event.fetchCurrent issue.key (readField issue),
        Event.display issue.key (readField issue)
          (buildNewStatus today statusUpdate (readField issue) addDatePrefix),
        Event.writeField issue.key
          (buildNewStatus today statusUpdate (readField issue) addDatePrefix),
        Event.updateOk issue.key], ?_, ?_⟩
      · simp [stepInteractive, attemptUpdate, h0, h1, hw]
      · intro e he
        simp only [List.mem_cons, List.not_mem_nil, or_false] at he
        rcases he with rfl | rfl | rfl | rfl <;> rfl
    · refine ⟨[Event.fetchCurrent issue.key (readField issue),
        Event.display issue.key (readField issue)
          (buildNewStatus today statusUpdate (readField issue) addDatePrefix),
        Event.writeField issue.key
          (buildNewStatus today statusUpdate (readField issue) addDatePrefix),
        Event.updateFailed issue.key], ?_, ?_⟩
      · simp [stepInteractive, attemptUpdate, h0, h1, hw]
      · intro e he
        simp only [List.mem_cons, List.not_mem_nil, or_false] at he
        rcases he with rfl | rfl | rfl | rfl <;> rfl
  by_cases hy : isYes (normalizeAnswer (s.answers.head?.getD "")) = true
  · by_cases hw : writeOk issue.key
      (buildNewStatus today statusUpdate (readField issue) addDatePrefix)
    · refine ⟨[Event.fetchCurrent issue.key (readField issue),
        Event.display issue.key (readField issue)
          (buildNewStatus today statusUpdate (readField issue) addDatePrefix),
        Event.promptUser issue.key,
        Event.writeField issue.key
          (buildNewStatus today statusUpdate (readField issue) addDatePrefix),
        Event.updateOk issue.key], ?_, ?_⟩
      · simp [stepInteractive, attemptUpdate, h0, h1, hy, hw]
      · intro e he
        simp only [List.mem_cons, List.not_mem_nil, or_false] at he
        rcases he with rfl | rfl | rfl | rfl | rfl <;> rfl
    · refine ⟨[Event.fetchCurrent issue.key (readField issue),
        Event.display issue.key (readField issue)
          (buildNewStatus today statusUpdate (readField issue) addDatePrefix),
        Event.promptUser issue.key,
        Event.writeField issue.key
          (buildNewStatus today statusUpdate (readField issue) addDatePrefix),
        Event.updateFailed issue.key], ?_, ?_⟩
      · simp [stepInteractive, attemptUpdate, h0, h1, hy, hw]
      · intro e he
        simp only [List.mem_cons, List.not_mem_nil, or_false] at he
        rcases he with rfl | rfl | rfl | rfl | rfl <;> rfl
  by_cases hall : isAll (normalizeAnswer (s.answers.head?.getD "")) = true
  · by_cases hw : writeOk issue.key
      (buildNewStatus today statusUpdate (readField issue) addDatePrefix)
    · refine ⟨[Event.fetchCurrent issue.key (readField issue),
        Event.display issue.key (readField issue)
          (buildNewStatus today statusUpdate (readField issue) addDatePrefix),
        Event.promptUser issue.key,
        Event.writeField issue.key
          (buildNewStatus today statusUpdate (readField issue) addDatePrefix),
        Event.updateOk issue.key], ?_, ?_⟩
      · simp [stepInteractive, attemptUpdate, h0, h1, hy, hall, hw]
      · intro e he
        simp only [List.mem_cons, List.not_mem_nil, or_false] at he
        rcases he with rfl | rfl | rfl | rfl | rfl <;> rfl
    · refine ⟨[Event.fetchCurrent issue.key (readField issue),
        Event.display issue.key (readField issue)
          (buildNewStatus today statusUpdate (readField issue) addDatePrefix),
        Event.promptUser issue.key,
        Event.writeField issue.key
          (buildNewStatus today statusUpdate (readField issue) addDatePrefix),
        Event.updateFailed issue.key], ?_, ?_⟩
      · simp [stepInteractive, attemptUpdate, h0, h1, hy, hall, hw]
      · intro e he
        simp only [List.mem_cons, List.not_mem_nil, or_false] at he
        rcases he with rfl | rfl | rfl | rfl | rfl <;> rfl
  · refine ⟨[Event.fetchCurrent issue.key (readField issue),
      Event.display issue.key (readField issue)
        (buildNewStatus today statusUpdate (readField issue) addDatePrefix),
      Event.promptUser issue.key], ?_, ?_⟩
    · by_cases hs : isSkip (normalizeAnswer (s.answers.head?.getD "")) = true <;>
        simp [stepInteractive, h0, h1, hy, hall, hs]
    · intro e he
      simp only [List.mem_cons, List.not_mem_nil, or_false] at he
      rcases he with rfl | rfl | rfl <;> rfl

lemma foldl_stepInteractive_event_key (readField : JiraIssue → Option String)
    (writeOk : String → String → Bool) (today statusUpdate : String)
    (addDatePrefix : Bool) (l : List JiraIssue) (s : InterState) :
    ∀ e ∈ (List.foldl (stepInteractive readField writeOk today statusUpdate
        addDatePrefix) s l).trace,
      e ∈ s.trace ∨ e.key ∈ l.map JiraIssue.key := by
  induction l generalizing s with
  | nil =>
    intro e he
    exact Or.inl he
  | cons i t ih =>
    intro e he
    rw [List.foldl_cons] at he
    rcases ih (stepInteractive readField writeOk today statusUpdate addDatePrefix s i)
        e he with h | h
    · rcases stepInteractive_trace_shape readField writeOk today statusUpdate
        addDatePrefix s i with ⟨tr, htr, hkey⟩
      rw [htr] at h
      rcases List.mem_append.mp h with h2 | h2
      · exact Or.inl h2
      · rw [List.map_cons]
        exact Or.inr (by rw [hkey e h2]; exact List.mem_cons_self _ _)
    · rw [List.map_cons]
      exact Or.inr (List.mem_cons_of_mem _ h)

lemma handleUpdate_trace_key (issues : List JiraIssue)
    (readField : JiraIssue → Option String) (writeOk : String → String → Bool)
    (today : String) (answers : List String) (statusUpdate : String)
    (dryRun addDatePrefix : Bool) :
    ∀ e ∈ (handleUpdate true (Except.ok issues) readField writeOk today answers
        statusUpdate dryRun addDatePrefix).trace,
      e.key ∈ issues.map JiraIssue.key := by
  intro e he
  by_cases h0 : issues.length = 0
  · have hnil : issues = [] := List.length_eq_zero.mp h0
    subst hnil
    simp [handleUpdate] at he
  · by_cases hd : dryRun
    · have htrace : (handleUpdate true (Except.ok issues) readField writeOk today
          answers statusUpdate dryRun addDatePrefix).trace
            = issues.flatMap (dryRunIssueEvents readField today statusUpdate
                addDatePrefix) := by
        simp [handleUpdate, h0, hd, processTicketsDryRun]
      rw [htrace] at he
      rcases List.mem_flatMap.mp he with ⟨i, hi, hei⟩
      have hkey : e.key = i.key := by
        rcases (by simpa [dryRunIssueEvents] using hei :
            e = Event.fetchCurrent i.key (readField i) ∨
            e = Event.display i.key (readField i)
              (buildNewStatus today statusUpdate (readField i) addDatePrefix))
          with rfl | rfl <;> rfl
      rw [hkey]
      exact List.mem_map.mpr ⟨i, hi, rfl⟩
    · have htrace : (handleUpdate true (Except.ok issues) readField writeOk today
          answers statusUpdate dryRun addDatePrefix).trace
            = (List.foldl (stepInteractive readField writeOk today statusUpdate
                addDatePrefix) (initialInterState answers) issues).trace := by
        simp [handleUpdate, h0, hd, processTicketsInteractive]
      rw [htrace] at he
      rcases foldl_stepInteractive_event_key readField writeOk today statusUpdate
        addDatePrefix issues (initialInterState answers) e he with h | h
      · simp [initialInterState] at h
      · exact h

/-- C9: the search request carries maxResults = 100, so against a repository
that honors the bound a run operates on the first 100 matching issues: the
search result is exactly the first 100, hence at most 100 issues, and every
fetch, display, prompt or WriteField event of the whole run concerns one of
those first 100 issues — an issue beyond them is never displayed, prompted
for, or mutated. -/
theorem searchIssues_maxResults_bounded
    (fieldsResp : Except String (List JiraField))
    (allMatching : String → List JiraIssue) (jql : String) (st : JiraState)
    (fid : String) (st2 : JiraState)
    (readField : JiraIssue → Option String) (writeOk : String → String → Bool)
    (today : String) (answers : List String) (statusUpdate : String)
    (dryRun addDatePrefix : Bool)
    (hres : getCurrentStatusFieldId fieldsResp st = (Except.ok fid, st2)) :
    (∀ req ∈ (searchIssues fieldsResp (compliantSearchServer allMatching) jql
        st).2.2, req.maxResults = 100)
  ∧ (searchIssues fieldsResp (compliantSearchServer allMatching) jql st).1
      = Except.ok ((allMatching jql).take 100)
  ∧ ((allMatching jql).take 100).length ≤ 100
  ∧ (∀ e ∈ (handleUpdate true (Except.ok ((allMatching jql).take 100)) readField
        writeOk today answers statusUpdate dryRun addDatePrefix).trace,
      e.key ∈ ((allMatching jql).take 100).map JiraIssue.key) := by
  refine ⟨?_, ?_, ?_, handleUpdate_trace_key _ _ _ _ _ _ _ _⟩
  · intro req hreq
    simp only [searchIssues, hres, compliantSearchServer] at hreq
    simp only [List.mem_singleton] at hreq
    subst hreq
    rfl
  · simp [searchIssues, hres, compliantSearchServer]
  · exact List.length_take_le 100 (allMatching jql)

/-- Witness for C9: a concrete search over three matching issues returns all
three (fewer than 100), and the request it sent asked for at most 100
results. -/
theorem searchIssues_maxResults_bounded_witness :
    (searchIssues (Except.ok [statusField])
        (compliantSearchServer (fun _ => [rmIssue1, rmIssue2, rmIssue3]))
        "project = RM" initialJiraState).1
      = Except.ok [rmIssue1, rmIssue2, rmIssue3]
  ∧ (searchIssues (Except.ok [statusField])
        (compliantSearchServer (fun _ => [rmIssue1, rmIssue2, rmIssue3]))
        "project = RM" initialJiraState).2.2.all
      (fun req => req.maxResults == 100) = true := by
  have h := searchIssues_maxResults_bounded (Except.ok [statusField])
    (fun _ => [rmIssue1, rmIssue2, rmIssue3]) "project = RM" initialJiraState
    "customfield_10001" ⟨some "customfield_10001", 1⟩ rmReadField
    (fun _ _ => true) "2026-01-27" [] "On track" false true rfl
  constructor
  · exact h.2.1.trans (by rfl)
  · rw [List.all_eq_true]
    intro req hreq
    have := h.1 req hreq
    simp [this]
